import Mathlib

/-!
Shallow embedding of the deterministic WASM execution core in
`apps/src/lib/node/vm/mod.rs` (runners, validator, instrumenter, error type),
together with models of the pieces the module uses from outside of `src/`:
the external crates `wasmparser`, `parity_wasm`/`pwasm_utils` and `wasmer`
(modelled at the level of their documented interfaces), and the repository
files `host_env.rs`, `memory.rs`, `write_log.rs`, `prefix_iter.rs` which are
referenced by `mod.rs` but are not available (those definitions are marked
`Modelled from the spec:`).

Machine integers: the source's byte strings (`Vec<u8>`, `&[u8]`) are
`List Nat`, `u64` guest return values are `Nat` (only compared to 0/1, so no
overflow is involved), and `u32`/gas counters are `Nat`.
-/

namespace Vm

/-- Raw bytes (`Vec<u8>` / `&[u8]`). -/
abbrev Bytes := List Nat

/-- `anoma_shared::types::Address`, kept opaque as a string. -/
abbrev Address := String

/-- `anoma_shared::types::Key`, kept opaque as a string. -/
abbrev Key := String

/-! ## Validator: model of `wasmparser` (external crate)

`wasmparser::Validator::validate_all` parses the module binary and rejects
both malformed byte strings and well-formed modules that use a WASM feature
disabled in the configured `WasmFeatures` mask.  The binary format is
abstracted: a valid module starts with the wasm magic `\0asm`
(bytes 0, 97, 115, 109); after the magic, byte 0 stands for an ordinary
deterministic instruction, byte 1 for `memory.grow`, bytes 10..20 stand for a
use of one of the gated features, and any other byte is malformed. -/

/-- The feature gates of `wasmparser::WasmFeatures` that the source sets,
plus `nondeterministic`: a construct that is only accepted when
`deterministic_only` is off (e.g. a non-canonical float NaN). -/
inductive WasmFeature
  | reference_types
  | multi_value
  | bulk_memory
  | module_linking
  | simd
  | threads
  | tail_call
  | multi_memory
  | exceptions
  | memory64
  | nondeterministic
deriving DecidableEq, Repr

/-- `wasmparser::WasmFeatures`, field for field (in the order the source
writes them). -/
structure WasmFeatures where
  reference_types : Bool
  multi_value : Bool
  bulk_memory : Bool
  module_linking : Bool
  simd : Bool
  threads : Bool
  tail_call : Bool
  deterministic_only : Bool
  multi_memory : Bool
  exceptions : Bool
  memory64 : Bool
deriving DecidableEq, Repr

/-- Whether the mask `f` permits a use of feature `feat`. -/
def featureAllowed (f : WasmFeatures) : WasmFeature → Bool
  | .reference_types => f.reference_types
  | .multi_value => f.multi_value
  | .bulk_memory => f.bulk_memory
  | .module_linking => f.module_linking
  | .simd => f.simd
  | .threads => f.threads
  | .tail_call => f.tail_call
  | .multi_memory => f.multi_memory
  | .exceptions => f.exceptions
  | .memory64 => f.memory64
  | .nondeterministic => !f.deterministic_only

/-- The feature a body byte encodes a use of, if any (bytes 0 and 1 are
ordinary instructions). -/
def byteFeature : Nat → Option WasmFeature
  | 10 => some .reference_types
  | 11 => some .multi_value
  | 12 => some .bulk_memory
  | 13 => some .module_linking
  | 14 => some .simd
  | 15 => some .threads
  | 16 => some .tail_call
  | 17 => some .multi_memory
  | 18 => some .exceptions
  | 19 => some .memory64
  | 20 => some .nondeterministic
  | _ => none

/-- Whether a body byte is an ordinary (always accepted) instruction byte. -/
def plainByte (b : Nat) : Bool := b == 0 || b == 1

/-- The features a byte string uses. -/
def usedFeatures (code : Bytes) : List WasmFeature := code.filterMap byteFeature

/-- `wasmparser::BinaryReaderError`: carries the offset of the offending
byte. -/
structure BinaryReaderError where
  offset : Nat
deriving DecidableEq, Repr

/-- Scan of the module body by the validator: accepts ordinary bytes,
accepts a feature byte only when the mask enables the feature, and fails on
any other byte.  `off` is the current byte offset (for the error). -/
def checkBody (f : WasmFeatures) : Bytes → Nat → Except BinaryReaderError Unit
  | [], _ => .ok ()
  | b :: rest, off =>
    if plainByte b then checkBody f rest (off + 1)
    else match byteFeature b with
      | some feat =>
        if featureAllowed f feat then checkBody f rest (off + 1)
        else .error ⟨off⟩
      | none => .error ⟨off⟩

/-- Model of `wasmparser::Validator` configured with a feature mask. -/
structure Validator where
  features : WasmFeatures
deriving DecidableEq, Repr

/-- `Validator::validate_all`: requires the wasm magic, then checks the
body against the feature mask. -/
def Validator.validate_all (v : Validator) (code : Bytes) :
    Except BinaryReaderError Unit :=
  match code with
  | 0 :: 97 :: 115 :: 109 :: rest => checkBody v.features rest 4
  | _ => .error ⟨0⟩

/-! ## Error payloads

Payload types of the error enum's variants.  Apart from
`BinaryReaderError` above they are opaque carriers of a display string. -/

/-- `vm::memory::Error` (memory.rs is not under `src/`). -/
structure MemError where
  msg : String
deriving DecidableEq, Repr

/-- `parity_wasm::elements::Error`. -/
structure ElementsError where
  msg : String
deriving DecidableEq, Repr

/-- `wasmer::CompileError`. -/
structure CompileErr where
  msg : String
deriving DecidableEq, Repr

/-- `wasmer::ExportError`. -/
structure ExportError where
  msg : String
deriving DecidableEq, Repr

/-- `wasmer::RuntimeError`. -/
structure RuntimeErr where
  msg : String
deriving DecidableEq, Repr

/-- `wasmer::InstantiationError`. -/
structure InstErr where
  msg : String
deriving DecidableEq, Repr

/-- The `Error` enum of `vm/mod.rs`, variant for variant and in source
order. -/
inductive Error
  | MemoryError (e : MemError)
  | StackLimiterInjection
  | DeserializationError (e : ElementsError)
  | SerializationError (e : ElementsError)
  | GasMeterInjection
  | CompileError (e : CompileErr)
  | MissingModuleMemory (e : ExportError)
  | MissingModuleEntrypoint (e : ExportError)
  | RuntimeError (e : RuntimeErr)
  | InstantiationError (e : InstErr)
  | UnexpectedModuleEntrypointInterface (entrypoint : String) (error : RuntimeErr)
  | ValidationError (e : BinaryReaderError)
deriving DecidableEq, Repr

/-- The user-visible message of each variant: the `#[error("...")]`
(`thiserror`) format string of the source, with `{0}` / named fields
spliced in. -/
def Error.message : Error → String
  | .MemoryError e => "Memory error: " ++ e.msg
  | .StackLimiterInjection => "Unable to inject gas meter"
  | .DeserializationError e => "Wasm deserialization error: " ++ e.msg
  | .SerializationError e => "Wasm serialization error: " ++ e.msg
  | .GasMeterInjection => "Unable to inject gas meter"
  | .CompileError e => "Wasm compilation error: " ++ e.msg
  | .MissingModuleMemory e =>
    "Missing wasm memory export, failed with: " ++ e.msg
  | .MissingModuleEntrypoint e => "Missing wasm entrypoint: " ++ e.msg
  | .RuntimeError e => "Failed running wasm with: " ++ e.msg
  | .InstantiationError e =>
    "Failed instantiating wasm module with: " ++ e.msg
  | .UnexpectedModuleEntrypointInterface entrypoint error =>
    "Unexpected module entrypoint interface " ++ entrypoint
      ++ ", failed with: " ++ error.msg
  | .ValidationError e => "Wasm validation error: " ++ toString e.offset

/-- Entry symbol constants of the source. -/
def TX_ENTRYPOINT : String := "_apply_tx"

def VP_ENTRYPOINT : String := "_validate_tx"

def MATCHMAKER_ENTRYPOINT : String := "_match_intent"

def FILTER_ENTRYPOINT : String := "_validate_intent"

/-- `WASM_STACK_LIMIT: u32 = u16::MAX as u32`. -/
def WASM_STACK_LIMIT : Nat := 2 ^ 16 - 1

/-- The `WasmFeatures` literal `validate_untrusted_wasm` builds, field for
field. -/
def untrustedWasmFeatures : WasmFeatures :=
  { reference_types := false
    multi_value := false
    bulk_memory := false
    module_linking := false
    simd := false
    threads := false
    tail_call := false
    deterministic_only := true
    multi_memory := false
    exceptions := false
    memory64 := false }

/-- `validate_untrusted_wasm`: builds a `Validator`, sets the feature mask
`untrustedWasmFeatures`, and runs `validate_all`, mapping the failure to
`Error::ValidationError`. -/
def validate_untrusted_wasm (wasm_code : Bytes) : Except Error Unit :=
  let validator : Validator := { features := untrustedWasmFeatures }
  (validator.validate_all wasm_code).mapError Error.ValidationError

/-! ## Instrumenter: model of `parity_wasm` / `pwasm_utils` (external crates)

A deserialized module is a list of instructions plus its import list and the
injected stack limit, if any.  The raw binary format is the one the
validator model uses: magic then body bytes 0 (ordinary instruction) and 1
(`memory.grow`); feature bytes and anything else do not deserialize. -/

/-- An instruction of a (possibly instrumented) module: an ordinary
instruction, a `memory.grow`, or an injected call of the host gas function
`field` imported from module `module_name` charging `cost`. -/
inductive MInstr
  | plain
  | growMemory
  | gasCall (module_name : String) (field : String) (cost : Nat)
deriving DecidableEq, Repr

/-- Instruction classes that `pwasm_utils::rules::Set::entries` can key
costs by. -/
inductive InstrKind
  | plain
  | growMemory
  | call
deriving DecidableEq, Repr

/-- The class of an instruction. -/
def MInstr.kind : MInstr → InstrKind
  | .plain => .plain
  | .growMemory => .growMemory
  | .gasCall _ _ _ => .call

/-- `pwasm_utils::rules::Metering`: a fixed cost or a forbidden
instruction. -/
inductive Metering
  | fixed (cost : Nat)
  | forbidden
deriving DecidableEq, Repr

/-- `pwasm_utils::rules::Set`: per-class overrides, the regular
per-instruction cost, and the `memory.grow` cost (charged per page grown
when positive). -/
structure RulesSet where
  entries : List (InstrKind × Metering)
  regular : Nat
  grow : Nat
deriving DecidableEq, Repr

/-- `rules::Set::default()`: no overrides, regular cost 1, grow cost 0. -/
def RulesSet.defaultSet : RulesSet := { entries := [], regular := 1, grow := 0 }

/-- `Set::with_grow_cost`. -/
def RulesSet.with_grow_cost (r : RulesSet) (cost : Nat) : RulesSet :=
  { r with grow := cost }

/-- `Set::instruction_cost`: the gas the injected counter charges for one
instruction, or `none` when the rules forbid it (which makes the gas
injection fail). -/
def RulesSet.instruction_cost (r : RulesSet) (i : MInstr) : Option Nat :=
  match r.entries.lookup i.kind with
  | some (.fixed c) => some c
  | some .forbidden => none
  | none =>
    match i with
    | .growMemory => some (if r.grow > 0 then r.grow else r.regular)
    | _ => some r.regular

/-- `parity_wasm::elements::Module`, reduced to the parts instrumentation
touches: imports (module name, field name), the code, and the stack-height
bound injected by the limiter, if any. -/
structure PwasmModule where
  imports : List (String × String)
  body : List MInstr
  stackLimit : Option Nat
deriving DecidableEq, Repr

namespace elements

/-- Decode of a module body: byte 0 is an ordinary instruction, byte 1 is
`memory.grow`, anything else does not deserialize. -/
def decodeBody : Bytes → Except ElementsError (List MInstr)
  | [] => .ok []
  | 0 :: rest => (decodeBody rest).map (MInstr.plain :: ·)
  | 1 :: rest => (decodeBody rest).map (MInstr.growMemory :: ·)
  | _ :: _ => .error ⟨"invalid opcode"⟩

/-- `elements::deserialize_buffer`: requires the wasm magic and a decodable
body; a raw (never instrumented) module has no imports and no injected
stack limit. -/
def deserialize_buffer (code : Bytes) : Except ElementsError PwasmModule :=
  match code with
  | 0 :: 97 :: 115 :: 109 :: rest =>
    (decodeBody rest).map fun body =>
      { imports := [], body := body, stackLimit := none }
  | _ => .error ⟨"magic header not detected"⟩

/-- Encode of one (possibly instrumented) instruction. -/
def encodeInstr : MInstr → Bytes
  | .plain => [0]
  | .growMemory => [1]
  | .gasCall _ _ cost => [2, cost]

/-- `elements::serialize`: the wasm magic, the encoded import count, the
encoded stack limit, then the encoded body.  On the modules this model
builds (well-formed by construction) serialization does not fail. -/
def serialize (m : PwasmModule) : Except ElementsError Bytes :=
  .ok ([0, 97, 115, 109, m.imports.length, m.stackLimit.getD 0]
    ++ (m.body.map encodeInstr).flatten)

end elements

namespace pwasm_utils

/-- `pwasm_utils::inject_gas_counter`: adds an import of the host function
`"gas"` from module `module_name` and precedes every instruction with a
call of it charging that instruction's cost under `rules`.  It fails
(returning the original module, as the crate does) when the rules forbid
some instruction of the body. -/
def inject_gas_counter (m : PwasmModule) (rules : RulesSet)
    (module_name : String) : Except PwasmModule PwasmModule :=
  match m.body.mapM (fun i =>
      (rules.instruction_cost i).map
        fun c => [MInstr.gasCall module_name "gas" c, i]) with
  | none => .error m
  | some segments =>
    .ok { imports := (module_name, "gas") :: m.imports
          body := segments.flatten
          stackLimit := m.stackLimit }

/-- `pwasm_utils::stack_height::inject_limiter`: records the stack-height
bound the injected limiter enforces.  The crate's failures concern
malformed function bodies, which cannot arise in this model, so the rewrite
does not fail here. -/
def inject_limiter (m : PwasmModule) (limit : Nat) :
    Except PwasmModule PwasmModule :=
  .ok { m with stackLimit := some limit }

end pwasm_utils

/-- `get_gas_rules`: the default rules with `memory.grow` cost 1. -/
def get_gas_rules : RulesSet := RulesSet.defaultSet.with_grow_cost 1

/-- `prepare_wasm_code`: deserialize, inject the gas counter (rules from
`get_gas_rules`, import module `"env"`), inject the stack-height limiter
bounded by `WASM_STACK_LIMIT`, and serialize.  A pure function of the
bytes: it performs no I/O and touches no host state. -/
def prepare_wasm_code (code : Bytes) : Except Error Bytes := do
  let module ←
    (elements.deserialize_buffer code).mapError Error.DeserializationError
  let module ←
    match pwasm_utils.inject_gas_counter module get_gas_rules "env" with
    | .ok m => Except.ok m
    | .error _original_module => Except.error Error.GasMeterInjection
  let module ←
    match pwasm_utils.inject_limiter module WASM_STACK_LIMIT with
    | .ok m => Except.ok m
    | .error _original_module => Except.error Error.StackLimiterInjection
  (elements.serialize module).mapError Error.SerializationError

/-! ## Host state

The ledger-side structures the host environment borrows.  `Storage`,
`WriteLog` and the iterators live in repository files that are not under
`src/`, so they are modelled from the spec's data model. -/

/-- Modelled from the spec: `Storage` (storage.rs is not under `src/`) is a
persistent key-value view; the core only borrows it read-only. -/
structure Storage where
  kv : List (Key × Bytes)
deriving DecidableEq, Repr

/-- A pending mutation of one storage key. -/
inductive StorageModification
  | write (value : Bytes)
  | delete
deriving DecidableEq, Repr

/-- Modelled from the spec: `WriteLog` (write_log.rs is not under `src/`)
is an overlay of pending mutations keyed by storage key. -/
structure WriteLog where
  log : List (Key × StorageModification)
deriving DecidableEq, Repr

/-- Record a pending write in the overlay. -/
def WriteLog.writeKey (wl : WriteLog) (k : Key) (v : Bytes) : WriteLog :=
  ⟨(k, .write v) :: wl.log⟩

/-- Record a pending delete in the overlay. -/
def WriteLog.deleteKey (wl : WriteLog) (k : Key) : WriteLog :=
  ⟨(k, .delete) :: wl.log⟩

/-- Modelled from the spec: `PrefixIterators` (prefix_iter.rs is not under
`src/`) maps dense handles, allocated from 0, to live storage cursors; one
instance per runner invocation.  Only the handle counter is modelled. -/
structure PfxIterators where
  nextHandle : Nat
deriving DecidableEq, Repr

/-- `PrefixIterators::new`. -/
def PfxIterators.new : PfxIterators := ⟨0⟩

/-- `BlockGasMeter` (gas.rs is not under `src/`): a monotonic counter. -/
structure BlockGasMeter where
  consumed : Nat
deriving DecidableEq, Repr

/-- Charge gas to a block gas meter. -/
def BlockGasMeter.add (g : BlockGasMeter) (c : Nat) : BlockGasMeter :=
  ⟨g.consumed + c⟩

/-- `VpGasMeter` (gas.rs is not under `src/`): a per-VP monotonic
counter. -/
structure VpGasMeter where
  consumed : Nat
deriving DecidableEq, Repr

/-- Charge gas to a VP gas meter. -/
def VpGasMeter.add (g : VpGasMeter) (c : Nat) : VpGasMeter :=
  ⟨g.consumed + c⟩

/-! ## Host calls

A guest's observable behaviour towards the host is its trace of host calls.
The call tables are modelled from the spec's §4.4 (host_env.rs is not under
`src/`). -/

/-- Modelled from the spec: the host calls a Tx guest may import. -/
inductive TxHostCall
  | read (key : Key)
  | has_key (key : Key)
  | write (key : Key) (value : Bytes)
  | delete (key : Key)
  | iter_pfx (pfx : Key)
  | iter_next (handle : Nat)
  | insert_verifier (addr : Address)
  | update_validity_predicate (addr : Address) (code : Bytes)
  | init_account (code : Bytes)
  | get_chain_id
  | get_block_height
  | get_block_hash
  | log_string (s : String)
  | gas (cost : Nat)
deriving DecidableEq, Repr

/-- Modelled from the spec: the host calls a VP guest may import — all
read-only towards storage and the write log.  `eval` carries the nested
module's bytes and input together with the host-call trace the nested run
made. -/
inductive VpHostCall
  | read_pre (key : Key)
  | read_post (key : Key)
  | has_key_pre (key : Key)
  | has_key_post (key : Key)
  | iter_pfx (pfx : Key)
  | iter_pre_next (handle : Nat)
  | iter_post_next (handle : Nat)
  | get_chain_id
  | get_block_height
  | get_block_hash
  | log_string (s : String)
  | gas (cost : Nat)
  | eval (vp_code : Bytes) (input_data : Bytes) (nested : List VpHostCall)

/-- The mutable host state a Tx invocation threads: the write-log overlay,
the iterators, the verifier set (a `HashSet<Address>`, modelled as a
duplicate-free list) and the block gas meter; storage is borrowed
read-only. -/
structure TxEnv where
  storage : Storage
  write_log : WriteLog
  iterators : PfxIterators
  verifiers : List Address
  gas_meter : BlockGasMeter
deriving DecidableEq, Repr

/-- `HashSet::insert`: add an address unless already present. -/
def hashSetInsert (s : List Address) (a : Address) : List Address :=
  if a ∈ s then s else a :: s

/-- Modelled from the spec: the effect of one Tx host call on the host
state.  Every host call charges the gas meter; writes and deletes go to the
write log; `insert_verifier` adds to the verifier set; `iter_pfx` allocates
the next iterator handle. -/
def applyTxCall (env : TxEnv) : TxHostCall → TxEnv
  | .write k v =>
    { env with write_log := env.write_log.writeKey k v
               gas_meter := env.gas_meter.add 1 }
  | .delete k =>
    { env with write_log := env.write_log.deleteKey k
               gas_meter := env.gas_meter.add 1 }
  | .insert_verifier a =>
    { env with verifiers := hashSetInsert env.verifiers a
               gas_meter := env.gas_meter.add 1 }
  | .iter_pfx _ =>
    { env with iterators := ⟨env.iterators.nextHandle + 1⟩
               gas_meter := env.gas_meter.add 1 }
  | .gas c => { env with gas_meter := env.gas_meter.add c }
  | _ => { env with gas_meter := env.gas_meter.add 1 }

/-- Run a Tx host-call trace over the host state. -/
def applyTxCalls (env : TxEnv) (calls : List TxHostCall) : TxEnv :=
  calls.foldl applyTxCall env

/-- Modelled from the spec: `VpEnv` (host_env.rs is not under `src/`): the
VP's address, the borrowed storage and write-log views, the per-invocation
iterators and gas meter, the tx code, and the `keys_changed` / `verifiers`
inputs. -/
structure VpEnv where
  addr : Address
  storage : Storage
  write_log : WriteLog
  iterators : PfxIterators
  gas_meter : VpGasMeter
  tx_code : Bytes
  keys_changed : List Key
  verifiers : List Address
deriving DecidableEq, Repr

mutual

/-- Modelled from the spec: the effect of one VP host call on the host
state.  All VP host calls are read-only towards storage and the write log:
they charge gas, `iter_pfx` allocates an iterator handle, and `eval` runs
the nested trace against the same environment (the nested VP shares the
caller's `VpEnv`, so its gas accrues to the caller's meter). -/
def applyVpCall (env : VpEnv) : VpHostCall → VpEnv
  | .iter_pfx _ =>
    { env with iterators := ⟨env.iterators.nextHandle + 1⟩
               gas_meter := env.gas_meter.add 1 }
  | .gas c => { env with gas_meter := env.gas_meter.add c }
  | .eval _ _ nested =>
    applyVpCalls { env with gas_meter := env.gas_meter.add 1 } nested
  | _ => { env with gas_meter := env.gas_meter.add 1 }

/-- Run a VP host-call trace over the host state. -/
def applyVpCalls (env : VpEnv) : List VpHostCall → VpEnv
  | [] => env
  | c :: cs => applyVpCalls (applyVpCall env c) cs

end

/-! ## Memory layer

memory.rs is not under `src/`; these definitions are modelled from the
spec's §4.3: each runner category prepares the guest's single linear
memory, and `write_*_inputs` serializes the call inputs into contiguous
regions, returning one `{ptr, len}` pair per logical input. -/

/-- A guest linear memory with its page count (a wasm page is 65536
bytes). -/
structure WasmMemory where
  pages : Nat
deriving DecidableEq, Repr

/-- Byte size of a linear memory. -/
def WasmMemory.size (m : WasmMemory) : Nat := m.pages * 65536

/-- Modelled from the spec: initial Tx guest memory. -/
def prepare_tx_memory : Except MemError WasmMemory := .ok ⟨16⟩

/-- Modelled from the spec: initial VP guest memory. -/
def prepare_vp_memory : Except MemError WasmMemory := .ok ⟨16⟩

/-- Modelled from the spec: initial matchmaker guest memory. -/
def prepare_matchmaker_memory : Except MemError WasmMemory := .ok ⟨16⟩

/-- Modelled from the spec: initial filter guest memory. -/
def prepare_filter_memory : Except MemError WasmMemory := .ok ⟨16⟩

/-- `memory::TxCallInput`. -/
structure TxCallInput where
  tx_data_ptr : Nat
  tx_data_len : Nat
deriving DecidableEq, Repr

/-- `vm_memory::VpInput`: the per-VP payload. -/
structure VpInput where
  addr : Address
  data : Bytes
  keys_changed : List Key
  verifiers : List Address
deriving DecidableEq, Repr

/-- `memory::VpCallInput`: the eight ptr/len values handed to
`_validate_tx`. -/
structure VpCallInput where
  addr_ptr : Nat
  addr_len : Nat
  data_ptr : Nat
  data_len : Nat
  keys_changed_ptr : Nat
  keys_changed_len : Nat
  verifiers_ptr : Nat
  verifiers_len : Nat
deriving DecidableEq, Repr

/-- `memory::MatchmakerCallInput`. -/
structure MatchmakerCallInput where
  data_ptr : Nat
  data_len : Nat
  intent_id_ptr : Nat
  intent_id_len : Nat
  intent_data_ptr : Nat
  intent_data_len : Nat
deriving DecidableEq, Repr

/-- `memory::FilterCallInput`. -/
structure FilterCallInput where
  intent_data_ptr : Nat
  intent_data_len : Nat
deriving DecidableEq, Repr

/-- Modelled from the spec: write the Tx input into guest memory; fails
when it does not fit. -/
def write_tx_inputs (memory : WasmMemory) (tx_data : Bytes) :
    Except MemError TxCallInput :=
  if tx_data.length ≤ memory.size then .ok ⟨0, tx_data.length⟩
  else .error ⟨"input does not fit in guest memory"⟩

/-- Serialized length of a list of keys or addresses. -/
def serializedLen (xs : List String) : Nat :=
  (xs.map String.length).sum + xs.length

/-- Modelled from the spec: write the VP inputs into guest memory as
contiguous regions, one ptr/len pair per logical input; fails when they do
not fit. -/
def write_vp_inputs (memory : WasmMemory) (input : VpInput) :
    Except MemError VpCallInput :=
  let addr_len := input.addr.length
  let data_len := input.data.length
  let keys_len := serializedLen input.keys_changed
  let vers_len := serializedLen input.verifiers
  if addr_len + data_len + keys_len + vers_len ≤ memory.size then
    .ok { addr_ptr := 0
          addr_len := addr_len
          data_ptr := addr_len
          data_len := data_len
          keys_changed_ptr := addr_len + data_len
          keys_changed_len := keys_len
          verifiers_ptr := addr_len + data_len + keys_len
          verifiers_len := vers_len }
  else .error ⟨"input does not fit in guest memory"⟩

/-- Modelled from the spec: write the matchmaker inputs into guest
memory. -/
def write_matchmaker_inputs (memory : WasmMemory)
    (data intent_id intent_data : Bytes) :
    Except MemError MatchmakerCallInput :=
  if data.length + intent_id.length + intent_data.length ≤ memory.size then
    .ok { data_ptr := 0
          data_len := data.length
          intent_id_ptr := data.length
          intent_id_len := intent_id.length
          intent_data_ptr := data.length + intent_id.length
          intent_data_len := intent_data.length }
  else .error ⟨"input does not fit in guest memory"⟩

/-- Modelled from the spec: write the filter input into guest memory. -/
def write_filter_inputs (memory : WasmMemory) (intent_data : Bytes) :
    Except MemError FilterCallInput :=
  if intent_data.length ≤ memory.size then .ok ⟨0, intent_data.length⟩
  else .error ⟨"input does not fit in guest memory"⟩

/-! ## Host handle wrappers

The four raw-pointer wrappers of `vm/mod.rs`, reduced to the mutability
discipline they encode: which wrapper kind each handle of a runner is
wrapped with. -/

/-- The wrapper a host handle is passed to the guest environment with. -/
inductive WrapperKind
  | envHost
  | envHostSlice
  | mutEnvHost
  | mutEnvHostSlice
deriving DecidableEq, Repr

/-- The wrapper kinds `VpRunner::run` uses, one field per wrapped
handle. -/
structure VpRunWrapping where
  storage : WrapperKind
  write_log : WrapperKind
  tx_code : WrapperKind
  iterators : WrapperKind
  gas_meter : WrapperKind
  storage_keys : WrapperKind
  verifiers : WrapperKind
deriving DecidableEq, Repr

/-- The wrapping performed by `VpRunner::run` (lines 366-384 of the
source): storage, write log, tx code, storage keys and verifiers via the
immutable `EnvHostWrapper` / `EnvHostSliceWrapper`, the per-invocation
iterators and the VP gas meter via the mutable `MutEnvHostWrapper`. -/
def vpRunWrapping : VpRunWrapping :=
  { storage := .envHost
    write_log := .envHost
    tx_code := .envHostSlice
    iterators := .mutEnvHost
    gas_meter := .mutEnvHost
    storage_keys := .envHostSlice
    verifiers := .envHost }

/-! ## Guest instances and the wasmer backend

`wasmer` is an external crate: compilation and instantiation are abstracted
as functions provided by a backend record, and an instantiated guest is
abstracted as its exports — the optional `memory` export and the optional
entry function, whose native-typing may fail, and which on invocation
produces a host-call trace and a result. -/

/-- Equality of `Except` values is decidable when it is on both sides. -/
instance {ε α : Type _} [DecidableEq ε] [DecidableEq α] :
    DecidableEq (Except ε α) := fun x y =>
  match x, y with
  | .ok a, .ok b =>
    if h : a = b then isTrue (by subst h; rfl)
    else isFalse (by intro hh; apply h; injection hh)
  | .ok _, .error _ => isFalse (fun hh => Except.noConfusion hh)
  | .error _, .ok _ => isFalse (fun hh => Except.noConfusion hh)
  | .error a, .error b =>
    if h : a = b then isTrue (by subst h; rfl)
    else isFalse (by intro hh; apply h; injection hh)

/-- The observable behaviour of one invocation of a Tx guest: the host
calls it makes, and `none` for a normal return of `()` or `some` trap. -/
structure TxGuest where
  calls : List TxHostCall
  outcome : Option RuntimeErr
deriving DecidableEq, Repr

/-- An instantiated Tx module: the `memory` export if present and the
`_apply_tx` export (`none` = missing; `some (.error e)` = present but its
`native::<(u64, u64), ()>` typing failed). -/
structure TxInstance where
  memoryExport : Option WasmMemory
  entry : Option (Except RuntimeErr TxGuest)
deriving DecidableEq, Repr

/-- The observable behaviour of one invocation of a VP guest: its host-call
trace and its `u64` result or trap. -/
structure VpGuest where
  calls : List VpHostCall
  result : Except RuntimeErr Nat

/-- An instantiated VP module. -/
structure VpInstance where
  memoryExport : Option WasmMemory
  entry : Option (Except RuntimeErr VpGuest)

/-- The observable behaviour of one invocation of a matchmaker guest (the
channel sends it makes are not modelled; no claim concerns them). -/
structure MmGuest where
  result : Except RuntimeErr Nat
deriving DecidableEq, Repr

/-- An instantiated matchmaker module. -/
structure MmInstance where
  memoryExport : Option WasmMemory
  entry : Option (Except RuntimeErr MmGuest)
deriving DecidableEq, Repr

/-- The observable behaviour of one invocation of a filter guest. -/
structure FilterGuest where
  result : Except RuntimeErr Nat
deriving DecidableEq, Repr

/-- An instantiated filter module. -/
structure FilterInstance where
  memoryExport : Option WasmMemory
  entry : Option (Except RuntimeErr FilterGuest)
deriving DecidableEq, Repr

/-- `tokio::sync::mpsc::Sender<MatchmakerMessage>`, kept opaque. -/
structure Sender where
  id : Nat
deriving DecidableEq, Repr

/-- Modelled from the spec: the import record `prepare_tx_imports` builds
(host_env.rs is not under `src/`). -/
structure TxImports where
  memory : WasmMemory
deriving DecidableEq, Repr

/-- Modelled from the spec: the import record built for a top-level VP run
(`prepare_vp_env`) or a nested one (`prepare_vp_imports`). -/
structure VpImports where
  memory : WasmMemory
deriving DecidableEq, Repr

/-- Modelled from the spec: the import record `prepare_matchmaker_imports`
builds; it closes over the tx code and the matchmaker channel sender. -/
structure MmImports where
  memory : WasmMemory
  tx_code : Bytes
  sender : Sender
deriving DecidableEq, Repr

/-- Modelled from the spec: the import record `prepare_filter_imports`
builds. -/
structure FilterImports where
  memory : WasmMemory
deriving DecidableEq, Repr

/-- Modelled from the spec: `host_env::prepare_tx_imports`. -/
def prepare_tx_imports (memory : WasmMemory) : TxImports := ⟨memory⟩

/-- Modelled from the spec: `host_env::prepare_vp_env` (top-level VP: wraps
the handles as `vpRunWrapping` records and builds the import table). -/
def prepare_vp_env (memory : WasmMemory) : VpImports := ⟨memory⟩

/-- Modelled from the spec: `host_env::prepare_vp_imports` (nested VP:
reuses the caller's already-wrapped `VpEnv`). -/
def prepare_vp_imports (memory : WasmMemory) : VpImports := ⟨memory⟩

/-- Modelled from the spec: `host_env::prepare_matchmaker_imports`. -/
def prepare_matchmaker_imports (memory : WasmMemory) (tx_code : Bytes)
    (sender : Sender) : MmImports := ⟨memory, tx_code, sender⟩

/-- Modelled from the spec: `host_env::prepare_filter_imports`. -/
def prepare_filter_imports (memory : WasmMemory) : FilterImports := ⟨memory⟩

/-- The `wasmer` operations a Tx runner uses: `Module::new` (compile,
producing an opaque artifact) and `Instance::new`. -/
structure TxBackend where
  compile : Bytes → Except CompileErr Bytes
  instantiate : Bytes → TxImports → Except InstErr TxInstance

/-- The `wasmer` operations a VP runner uses. -/
structure VpBackend where
  compile : Bytes → Except CompileErr Bytes
  instantiate : Bytes → VpImports → Except InstErr VpInstance

/-- The `wasmer` operations a matchmaker runner uses. -/
structure MmBackend where
  compile : Bytes → Except CompileErr Bytes
  instantiate : Bytes → MmImports → Except InstErr MmInstance

/-- The `wasmer` operations a filter runner uses. -/
structure FilterBackend where
  compile : Bytes → Except CompileErr Bytes
  instantiate : Bytes → FilterImports → Except InstErr FilterInstance

/-! ## Runners

The four runners of `vm/mod.rs`.  Rust's `&mut` borrows of the write log,
gas meter (and, inside the guest call, the iterators and verifier set) are
modelled by threading an environment value and returning its final state:
`TxRunner::run` returns the final `TxEnv` (whose `verifiers` field is the
`HashSet<Address>` the source returns), and the VP entry points return the
verdict together with the final `VpEnv`. -/

/-- `exports.get_memory("memory")`: the memory export or
`Error::MissingModuleMemory`. -/
def getMemoryExport (o : Option WasmMemory) : Except Error WasmMemory :=
  match o with
  | some m => .ok m
  | none => .error (Error.MissingModuleMemory ⟨"missing export memory"⟩)

/-- `exports.get_function(entrypoint)` followed by `.native::<..>()`: the
typed entry function, `Error::MissingModuleEntrypoint` when the export is
absent, or `Error::UnexpectedModuleEntrypointInterface` when its native
typing fails. -/
def getEntry {γ : Type} (entrypoint : String)
    (o : Option (Except RuntimeErr γ)) : Except Error γ :=
  match o with
  | none =>
    .error (Error.MissingModuleEntrypoint ⟨"missing export entrypoint"⟩)
  | some (.error e) =>
    .error (Error.UnexpectedModuleEntrypointInterface entrypoint e)
  | some (.ok g) => .ok g

/-- Invocation of a Tx guest (`apply_tx.call(..).map_err(RuntimeError)`):
its host calls act on the environment; a trap surfaces as
`Error::RuntimeError`. -/
def TxGuest.call (g : TxGuest) (input : TxCallInput) (env : TxEnv) :
    Except Error TxEnv :=
  let _ := input
  let env := applyTxCalls env g.calls
  match g.outcome with
  | some e => .error (Error.RuntimeError e)
  | none => .ok env

/-- Invocation of a VP guest (`validate_tx.call(..).map_err(RuntimeError)`):
its host calls act on the environment; the `u64` result is returned. -/
def VpGuest.call (g : VpGuest) (input : VpCallInput) (env : VpEnv) :
    Except Error (Nat × VpEnv) :=
  let _ := input
  let env := applyVpCalls env g.calls
  match g.result with
  | .error e => .error (Error.RuntimeError e)
  | .ok r => .ok (r, env)

/-- Invocation of a matchmaker guest. -/
def MmGuest.call (g : MmGuest) (input : MatchmakerCallInput) :
    Except Error Nat :=
  let _ := input
  match g.result with
  | .error e => .error (Error.RuntimeError e)
  | .ok r => .ok r

/-- Invocation of a filter guest. -/
def FilterGuest.call (g : FilterGuest) (input : FilterCallInput) :
    Except Error Nat :=
  let _ := input
  match g.result with
  | .error e => .error (Error.RuntimeError e)
  | .ok r => .ok r

namespace TxRunner

/-- `TxRunner::run_with_input`: look up the `memory` export, write the tx
data into guest memory, look up and natively type `_apply_tx`, and call it;
the guest's host calls act on the environment. -/
def run_with_input (tx_code : TxInstance) (tx_data : Bytes) (env : TxEnv) :
    Except Error TxEnv := do
  let memory ← getMemoryExport tx_code.memoryExport
  let input ← (write_tx_inputs memory tx_data).mapError Error.MemoryError
  let apply_tx ← getEntry TX_ENTRYPOINT tx_code.entry
  apply_tx.call input env

/-- `TxRunner::run`: validate the raw bytes, wrap the host handles (with a
fresh iterator table and a fresh empty verifier set), instrument, compile,
instantiate and invoke. -/
def run (backend : TxBackend) (storage : Storage) (write_log : WriteLog)
    (gas_meter : BlockGasMeter) (tx_code tx_data : Bytes) :
    Except Error TxEnv := do
  validate_untrusted_wasm tx_code
  let iterators := PfxIterators.new
  let verifiers : List Address := []
  let env : TxEnv := ⟨storage, write_log, iterators, verifiers, gas_meter⟩
  let code ← prepare_wasm_code tx_code
  let tx_module ← (backend.compile code).mapError Error.CompileError
  let initial_memory ← prepare_tx_memory.mapError Error.MemoryError
  let tx_imports := prepare_tx_imports initial_memory
  let inst ←
    (backend.instantiate tx_module tx_imports).mapError
      Error.InstantiationError
  run_with_input inst tx_data env

end TxRunner

namespace VpRunner

/-- `VpRunner::run_with_input`: look up the `memory` export, write the VP
inputs, look up and natively type `_validate_tx`, call it, and map its
`u64` result to the verdict `is_valid == 1`. -/
def run_with_input (vp_code : VpInstance) (input : VpInput) (env : VpEnv) :
    Except Error (Bool × VpEnv) := do
  let memory ← getMemoryExport vp_code.memoryExport
  let call_input ← (write_vp_inputs memory input).mapError Error.MemoryError
  let validate_tx ← getEntry VP_ENTRYPOINT vp_code.entry
  let res ← validate_tx.call call_input env
  Except.ok (res.1 == 1, res.2)

/-- `VpRunner::run`: validate the raw bytes, wrap the host handles (the
wrapper kinds are `vpRunWrapping`; iterators are freshly created),
instrument, compile, instantiate and invoke. -/
def run (backend : VpBackend) (vp_code tx_data tx_code : Bytes)
    (addr : Address) (storage : Storage) (write_log : WriteLog)
    (vp_gas_meter : VpGasMeter) (storage_keys : List Key)
    (verifiers : List Address) : Except Error (Bool × VpEnv) := do
  validate_untrusted_wasm vp_code
  let iterators := PfxIterators.new
  let env : VpEnv :=
    ⟨addr, storage, write_log, iterators, vp_gas_meter, tx_code,
      storage_keys, verifiers⟩
  let code ← prepare_wasm_code vp_code
  let vp_module ← (backend.compile code).mapError Error.CompileError
  let initial_memory ← prepare_vp_memory.mapError Error.MemoryError
  let input : VpInput := ⟨addr, tx_data, storage_keys, verifiers⟩
  let vp_imports := prepare_vp_env initial_memory
  let inst ←
    (backend.instantiate vp_module vp_imports).mapError
      Error.InstantiationError
  run_with_input inst input env

/-- `VpRunner::run_eval`: run a nested VP against the caller's `VpEnv` —
the module bytes go straight to `prepare_wasm_code` (there is no
`validate_untrusted_wasm` step here), the input is built from the caller's
address, `keys_changed` and `verifiers` read out of `vp_env`, and the
caller's environment (storage, write log, iterators, gas meter) is threaded
into the nested guest. -/
def run_eval (backend : VpBackend) (vp_code : Bytes) (input_data : Bytes)
    (vp_env : VpEnv) : Except Error (Bool × VpEnv) := do
  let code ← prepare_wasm_code vp_code
  let vp_module ← (backend.compile code).mapError Error.CompileError
  let initial_memory ← prepare_vp_memory.mapError Error.MemoryError
  let keys_changed := vp_env.keys_changed
  let verifiers := vp_env.verifiers
  let input : VpInput := ⟨vp_env.addr, input_data, keys_changed, verifiers⟩
  let vp_imports := prepare_vp_imports initial_memory
  let inst ←
    (backend.instantiate vp_module vp_imports).mapError
      Error.InstantiationError
  run_with_input inst input vp_env

end VpRunner

/-- Modelled from the spec: the `eval` host call (host_env.rs is not under
`src/`) runs a nested VP via `VpRunner::run_eval` against the caller's
environment and converts any error of the nested run to a reject
verdict. -/
def eval_host_call (backend : VpBackend) (vp_code : Bytes)
    (input_data : Bytes) (env : VpEnv) : Bool × VpEnv :=
  match VpRunner.run_eval backend vp_code input_data env with
  | .ok (verdict, env') => (verdict, env')
  | .error _ => (false, env)

namespace MatchmakerRunner

/-- `MatchmakerRunner::run_with_input`: look up the `memory` export, write
the matchmaker inputs, look up and natively type `_match_intent`, call it,
and map its `u64` result to the verdict `found_match == 0`. -/
def run_with_input (code : MmInstance) (data intent_id intent_data : Bytes) :
    Except Error Bool := do
  let memory ← getMemoryExport code.memoryExport
  let call_input ←
    (write_matchmaker_inputs memory data intent_id intent_data).mapError
      Error.MemoryError
  let apply_matchmaker ← getEntry MATCHMAKER_ENTRYPOINT code.entry
  let found_match ← apply_matchmaker.call call_input
  Except.ok (found_match == 0)

/-- `MatchmakerRunner::run`: compiles `matchmaker_code` directly — unlike
the other three runners it calls neither `validate_untrusted_wasm` nor
`prepare_wasm_code` — then instantiates and invokes. -/
def run (backend : MmBackend)
    (matchmaker_code data intent_id intent_data tx_code : Bytes)
    (inject_mm_message : Sender) : Except Error Bool := do
  let matchmaker_module ←
    (backend.compile matchmaker_code).mapError Error.CompileError
  let initial_memory ← prepare_matchmaker_memory.mapError Error.MemoryError
  let matchmaker_imports :=
    prepare_matchmaker_imports initial_memory tx_code inject_mm_message
  let inst ←
    (backend.instantiate matchmaker_module matchmaker_imports).mapError
      Error.InstantiationError
  run_with_input inst data intent_id intent_data

end MatchmakerRunner

namespace FilterRunner

/-- `FilterRunner::run_with_input`: look up the `memory` export, write the
intent data, look up and natively type `_validate_intent`, call it, and map
its `u64` result to the verdict `found_match == 0`. -/
def run_with_input (code : FilterInstance) (intent_data : Bytes) :
    Except Error Bool := do
  let memory ← getMemoryExport code.memoryExport
  let call_input ←
    (write_filter_inputs memory intent_data).mapError Error.MemoryError
  let apply_filter ← getEntry FILTER_ENTRYPOINT code.entry
  let found_match ← apply_filter.call call_input
  Except.ok (found_match == 0)

/-- `FilterRunner::run`: validate the raw bytes, instrument, compile,
instantiate and invoke. -/
def run (backend : FilterBackend) (code intent_data : Bytes) :
    Except Error Bool := do
  validate_untrusted_wasm code
  let icode ← prepare_wasm_code code
  let filter_module ← (backend.compile icode).mapError Error.CompileError
  let initial_memory ← prepare_filter_memory.mapError Error.MemoryError
  let filter_imports := prepare_filter_imports initial_memory
  let inst ←
    (backend.instantiate filter_module filter_imports).mapError
      Error.InstantiationError
  run_with_input inst intent_data

end FilterRunner

/-! ## Concrete backends and guests

Concrete instantiations of the abstract `wasmer` interface, used to
evaluate the runners on closed inputs. -/

/-- A Tx guest that requests three verifier insertions (one duplicated) and
returns normally. -/
def sampleTxGuest : TxGuest :=
  ⟨[.insert_verifier "a", .insert_verifier "b", .insert_verifier "a"], none⟩

/-- A Tx instance exporting a 16-page memory and `sampleTxGuest`. -/
def sampleTxInstance : TxInstance := ⟨some ⟨16⟩, some (.ok sampleTxGuest)⟩

/-- A backend whose compilation is the identity and whose instantiation
yields `sampleTxInstance`. -/
def sampleTxBackend : TxBackend := ⟨fun b => .ok b, fun _ _ => .ok sampleTxInstance⟩

/-- A VP guest that makes no host calls and accepts (returns 1). -/
def sampleVpGuest : VpGuest := ⟨[], .ok 1⟩

/-- A VP instance exporting a 16-page memory and `sampleVpGuest`. -/
def sampleVpInstance : VpInstance := ⟨some ⟨16⟩, some (.ok sampleVpGuest)⟩

/-- A backend whose compilation is the identity and whose instantiation
yields `sampleVpInstance`. -/
def sampleVpBackend : VpBackend := ⟨fun b => .ok b, fun _ _ => .ok sampleVpInstance⟩

/-- A matchmaker guest that reports a match (returns 0). -/
def sampleMmGuest : MmGuest := ⟨.ok 0⟩

/-- A matchmaker instance exporting a 16-page memory and `sampleMmGuest`. -/
def sampleMmInstance : MmInstance := ⟨some ⟨16⟩, some (.ok sampleMmGuest)⟩

/-- A backend whose compilation is the identity and whose instantiation
yields `sampleMmInstance`. -/
def sampleMmBackend : MmBackend := ⟨fun b => .ok b, fun _ _ => .ok sampleMmInstance⟩

/-- A filter guest that accepts (returns 0). -/
def sampleFilterGuest : FilterGuest := ⟨.ok 0⟩

/-- A filter instance exporting a 16-page memory and `sampleFilterGuest`. -/
def sampleFilterInstance : FilterInstance := ⟨some ⟨16⟩, some (.ok sampleFilterGuest)⟩

/-- A backend whose compilation is the identity and whose instantiation
yields `sampleFilterInstance`. -/
def sampleFilterBackend : FilterBackend :=
  ⟨fun b => .ok b, fun _ _ => .ok sampleFilterInstance⟩

/-! ## Lemmas about the validator -/

/-- A byte accepted as plain by the validator encodes no feature use. -/
theorem plainByte_no_feature (b : Nat) (h : plainByte b = true) :
    byteFeature b = none := by
  have : b = 0 ∨ b = 1 := by
    simpa [plainByte] using h
  rcases this with rfl | rfl <;> rfl

/-- If the validator's body scan accepts, every feature used in the body is
allowed by the mask. -/
theorem checkBody_ok_allowed (f : WasmFeatures) :
    ∀ (l : Bytes) (off : Nat), checkBody f l off = Except.ok () →
      ∀ b ∈ l, ∀ feat, byteFeature b = some feat →
        featureAllowed f feat = true := by
  intro l
  induction l with
  | nil => intro off _ b hb; simp at hb
  | cons x xs ih =>
    intro off h b hb feat hfeat
    rw [checkBody] at h
    by_cases hx : plainByte x = true
    · rw [if_pos hx] at h
      rcases List.mem_cons.mp hb with rfl | hmem
      · rw [plainByte_no_feature b hx] at hfeat; cases hfeat
      · exact ih (off + 1) h b hmem feat hfeat
    · rw [if_neg hx] at h
      cases hbf : byteFeature x with
      | none => simp only [hbf] at h; cases h
      | some fx =>
        simp only [hbf] at h
        by_cases hall : featureAllowed f fx = true
        · rw [if_pos hall] at h
          rcases List.mem_cons.mp hb with rfl | hmem
          · rw [hbf] at hfeat; cases hfeat; exact hall
          · exact ih (off + 1) h b hmem feat hfeat
        · rw [if_neg hall] at h; cases h

/-- If `validate_all` accepts a byte string, every feature it uses is
allowed by the validator's mask. -/
theorem validate_all_ok_allowed (v : Validator) (code : Bytes)
    (h : v.validate_all code = Except.ok ()) :
    ∀ feat ∈ usedFeatures code, featureAllowed v.features feat = true := by
  intro feat hfeat
  unfold Validator.validate_all at h
  match code, h with
  | 0 :: 97 :: 115 :: 109 :: rest, h =>
    have hrest : feat ∈ usedFeatures rest := by
      simpa [usedFeatures, List.filterMap_cons, show byteFeature 0 = none from rfl,
        show byteFeature 97 = none from rfl, show byteFeature 115 = none from rfl,
        show byteFeature 109 = none from rfl] using hfeat
    obtain ⟨b, hb, hbf⟩ := List.mem_filterMap.mp hrest
    exact checkBody_ok_allowed v.features rest 4 h b hb feat hbf

/-! ## C2: the validator's feature mask and soundness -/

/-- C2 (amended): `validate_untrusted_wasm` configures the validator with
exactly the feature mask that is all `false` except
`deterministic_only = true`, and returns `Err(ValidationError)` whenever
the byte string uses any feature in the forbidden set.  (The original
claim's "Ok(()) otherwise" is refuted by malformed byte strings, which the
validator also rejects.) -/
theorem validator_feature_mask_sound :
    untrustedWasmFeatures =
      { reference_types := false
        multi_value := false
        bulk_memory := false
        module_linking := false
        simd := false
        threads := false
        tail_call := false
        deterministic_only := true
        multi_memory := false
        exceptions := false
        memory64 := false } ∧
    ∀ code feat, feat ∈ usedFeatures code →
      featureAllowed untrustedWasmFeatures feat = false →
      ∃ e, validate_untrusted_wasm code = .error (Error.ValidationError e) := by
  refine ⟨rfl, ?_⟩
  intro code feat hmem hforbid
  cases hv : Validator.validate_all ⟨untrustedWasmFeatures⟩ code with
  | ok u =>
    cases u
    have hall := validate_all_ok_allowed ⟨untrustedWasmFeatures⟩ code hv feat hmem
    rw [hall] at hforbid
    cases hforbid
  | error e =>
    exact ⟨e, by simp [validate_untrusted_wasm, Except.mapError, hv]⟩

/-- C2 counterexample: the byte string `[1]` uses no feature of the
forbidden set, yet `validate_untrusted_wasm` rejects it — the validator
also rejects malformed byte strings, so the claim's "Ok(()) otherwise" is
false as stated. -/
theorem validator_rejects_malformed_cex :
    usedFeatures [1] = [] ∧
    validate_untrusted_wasm [1] = .error (Error.ValidationError ⟨0⟩) := by
  decide

/-- Witness for `validator_feature_mask_sound` at a concrete module using
SIMD. -/
theorem validator_feature_mask_sound_witness :
    WasmFeature.simd ∈ usedFeatures [0, 97, 115, 109, 14] ∧
    featureAllowed untrustedWasmFeatures WasmFeature.simd = false ∧
    ∃ e, validate_untrusted_wasm [0, 97, 115, 109, 14] =
      .error (Error.ValidationError e) :=
  ⟨by decide, by decide,
    validator_feature_mask_sound.2 [0, 97, 115, 109, 14] WasmFeature.simd
      (by decide) (by decide)⟩

/-! ## C10: the two injection errors render the same message -/

/-- C10: the user-visible message of `Error::StackLimiterInjection` is
"Unable to inject gas meter", character for character the message of
`Error::GasMeterInjection`, while the two variants themselves are
distinct. -/
theorem injection_error_messages_identical :
    Error.message Error.StackLimiterInjection = "Unable to inject gas meter" ∧
    Error.message Error.GasMeterInjection = "Unable to inject gas meter" ∧
    Error.StackLimiterInjection ≠ Error.GasMeterInjection :=
  ⟨rfl, rfl, by decide⟩

/-! ## C3: the instrumentation pipeline -/

/-- C3: `prepare_wasm_code` applies exactly two rewrites in order — first
the gas counter (host symbol `gas` in import module `env`, unit cost for
every instruction including `memory.grow` at cost 1) and then the
stack-height limiter bounded by `WASM_STACK_LIMIT = 65535` — and on
success returns the serialized instrumented module. -/
theorem prepare_wasm_code_pipeline :
    WASM_STACK_LIMIT = 65535 ∧
    get_gas_rules = { entries := [], regular := 1, grow := 1 } ∧
    (∀ i : MInstr, get_gas_rules.instruction_cost i = some 1) ∧
    (∀ m rules name m',
      pwasm_utils.inject_gas_counter m rules name = .ok m' →
      m'.imports = (name, "gas") :: m.imports) ∧
    (∀ code m, elements.deserialize_buffer code = .ok m →
      prepare_wasm_code code =
        match pwasm_utils.inject_gas_counter m get_gas_rules "env" with
        | .error _ => .error Error.GasMeterInjection
        | .ok m2 =>
          match pwasm_utils.inject_limiter m2 WASM_STACK_LIMIT with
          | .error _ => .error Error.StackLimiterInjection
          | .ok m3 =>
            (elements.serialize m3).mapError Error.SerializationError) := by
  refine ⟨rfl, rfl, ?_, ?_, ?_⟩
  · intro i
    cases i with
    | plain => rfl
    | growMemory => decide
    | gasCall m f c => rfl
  · intro m rules name m' h
    unfold pwasm_utils.inject_gas_counter at h
    split at h
    · cases h
    · cases h
      rfl
  · intro code m hm
    cases hg : pwasm_utils.inject_gas_counter m get_gas_rules "env" with
    | error m0 =>
      simp [prepare_wasm_code, hm, hg, Except.mapError, bind, Except.bind]
    | ok m2 =>
      simp [prepare_wasm_code, hm, hg, Except.mapError, bind, Except.bind,
        pwasm_utils.inject_limiter, elements.serialize]

/-- Witness for `prepare_wasm_code_pipeline` at a concrete one-instruction
module. -/
theorem prepare_wasm_code_pipeline_witness :
    prepare_wasm_code [0, 97, 115, 109, 0] =
      match pwasm_utils.inject_gas_counter ⟨[], [MInstr.plain], none⟩
          get_gas_rules "env" with
      | .error _ => .error Error.GasMeterInjection
      | .ok m2 =>
        match pwasm_utils.inject_limiter m2 WASM_STACK_LIMIT with
        | .error _ => .error Error.StackLimiterInjection
        | .ok m3 => (elements.serialize m3).mapError Error.SerializationError :=
  prepare_wasm_code_pipeline.2.2.2.2 [0, 97, 115, 109, 0]
    ⟨[], [MInstr.plain], none⟩ (by decide)

/-! ## C8: error kinds of the instrumenter, one per stage -/

/-- The stack-height limiter rewrite of this model does not fail (the
crate's failures concern malformed bodies, which cannot arise here). -/
theorem inject_limiter_ok (m : PwasmModule) (l : Nat) :
    pwasm_utils.inject_limiter m l = .ok { m with stackLimit := some l } := rfl

/-- Serialization of this model's (well-formed by construction) modules
does not fail. -/
theorem serialize_ok (m : PwasmModule) : ∃ b, elements.serialize m = .ok b :=
  ⟨_, rfl⟩

/-- C8: `prepare_wasm_code` fails only with `DeserializationError`,
`GasMeterInjection`, `StackLimiterInjection` or `SerializationError`, and
each of those arises exactly from the failure of its own stage, the earlier
stages having succeeded.  The function itself is a pure function of the
bytes (no I/O, no host state). -/
theorem prepare_wasm_code_error_kinds :
    ∀ code e, prepare_wasm_code code = .error e →
      ((∃ d, e = Error.DeserializationError d) ∨ e = Error.GasMeterInjection ∨
        e = Error.StackLimiterInjection ∨
        (∃ s, e = Error.SerializationError s)) ∧
      ((∃ d, e = Error.DeserializationError d) ↔
        (∃ d, elements.deserialize_buffer code = .error d)) ∧
      (e = Error.GasMeterInjection ↔
        (∃ m, elements.deserialize_buffer code = .ok m ∧
          ∃ m0, pwasm_utils.inject_gas_counter m get_gas_rules "env"
            = .error m0)) ∧
      (e = Error.StackLimiterInjection ↔
        (∃ m m2, elements.deserialize_buffer code = .ok m ∧
          pwasm_utils.inject_gas_counter m get_gas_rules "env" = .ok m2 ∧
          ∃ m0, pwasm_utils.inject_limiter m2 WASM_STACK_LIMIT
            = .error m0)) ∧
      ((∃ s, e = Error.SerializationError s) ↔
        (∃ m m2 m3, elements.deserialize_buffer code = .ok m ∧
          pwasm_utils.inject_gas_counter m get_gas_rules "env" = .ok m2 ∧
          pwasm_utils.inject_limiter m2 WASM_STACK_LIMIT = .ok m3 ∧
          ∃ s, elements.serialize m3 = .error s)) := by
  intro code e h
  cases hd : elements.deserialize_buffer code with
  | error d =>
    have he : e = Error.DeserializationError d := by
      simp [prepare_wasm_code, hd, Except.mapError, bind, Except.bind] at h
      exact h.symm
    subst he
    refine ⟨Or.inl ⟨d, rfl⟩, ⟨fun _ => ⟨d, rfl⟩, fun _ => ⟨d, rfl⟩⟩, ?_, ?_, ?_⟩
    · constructor
      · intro he
        cases he
      · rintro ⟨m, hm, -⟩
        cases hm
    · constructor
      · intro he
        cases he
      · rintro ⟨m, m2, hm, -⟩
        cases hm
    · constructor
      · rintro ⟨s, hs⟩
        cases hs
      · rintro ⟨m, m2, m3, hm, -⟩
        cases hm
  | ok m =>
    cases hg : pwasm_utils.inject_gas_counter m get_gas_rules "env" with
    | error m0 =>
      have he : e = Error.GasMeterInjection := by
        simp [prepare_wasm_code, hd, hg, Except.mapError, bind,
          Except.bind] at h
        exact h.symm
      subst he
      refine ⟨Or.inr (Or.inl rfl), ?_, ?_, ?_, ?_⟩
      · constructor
        · rintro ⟨d, hde⟩
          cases hde
        · rintro ⟨d, hde⟩
          cases hde
      · exact ⟨fun _ => ⟨m, rfl, m0, hg⟩, fun _ => rfl⟩
      · constructor
        · intro he
          cases he
        · rintro ⟨m', m2, hm', hg', -⟩
          cases hm'
          rw [hg] at hg'
          cases hg'
      · constructor
        · rintro ⟨s, hs⟩
          cases hs
        · rintro ⟨m', m2, m3, hm', hg', -⟩
          cases hm'
          rw [hg] at hg'
          cases hg'
    | ok m2 =>
      exfalso
      simp [prepare_wasm_code, hd, hg, Except.mapError, bind, Except.bind,
        pwasm_utils.inject_limiter, elements.serialize] at h

/-- Witness for `prepare_wasm_code_error_kinds` at a concrete byte string
without the wasm magic. -/
theorem prepare_wasm_code_error_kinds_witness :
    ∃ d, elements.deserialize_buffer [5] = .error d :=
  ((prepare_wasm_code_error_kinds [5]
      (Error.DeserializationError ⟨"magic header not detected"⟩)
      (by decide)).2.1).mp ⟨_, rfl⟩

/-! ## Plumbing lemmas for `Except` pipelines -/

/-- A bound `Except` computation succeeds exactly when both stages do. -/
theorem exceptBind_eq_ok {ε α β : Type _} (x : Except ε α)
    (f : α → Except ε β) (b : β) :
    x >>= f = Except.ok b ↔ ∃ a, x = Except.ok a ∧ f a = Except.ok b := by
  cases x <;> simp [Bind.bind, Except.bind]

/-- A bound `Except` computation fails exactly when one stage does. -/
theorem exceptBind_eq_error {ε α β : Type _} (x : Except ε α)
    (f : α → Except ε β) (e : ε) :
    x >>= f = Except.error e ↔
      x = Except.error e ∨ ∃ a, x = Except.ok a ∧ f a = Except.error e := by
  cases x <;> simp [Bind.bind, Except.bind]

/-- `mapError` does not affect success. -/
theorem mapError_eq_ok {ε ε' α : Type _} (x : Except ε α) (f : ε → ε')
    (b : α) : x.mapError f = Except.ok b ↔ x = Except.ok b := by
  cases x <;> simp [Except.mapError]

/-- `mapError` only relabels failure. -/
theorem mapError_eq_error {ε ε' α : Type _} (x : Except ε α) (f : ε → ε')
    (e' : ε') :
    x.mapError f = Except.error e' ↔
      ∃ e, x = Except.error e ∧ e' = f e := by
  cases x <;> simp [Except.mapError, eq_comm]

/-- The memory-export lookup succeeds exactly on a present export. -/
theorem getMemoryExport_eq_ok (o : Option WasmMemory) (m : WasmMemory) :
    getMemoryExport o = Except.ok m ↔ o = some m := by
  cases o <;> simp [getMemoryExport]

/-- The failure of a memory-export lookup is `MissingModuleMemory`. -/
theorem getMemoryExport_eq_error (o : Option WasmMemory) (e : Error) :
    getMemoryExport o = Except.error e ↔
      o = none ∧ e = Error.MissingModuleMemory ⟨"missing export memory"⟩ := by
  cases o <;> simp [getMemoryExport, eq_comm]

/-- The entry lookup succeeds exactly on a present, well-typed export. -/
theorem getEntry_eq_ok {γ : Type} (entrypoint : String)
    (o : Option (Except RuntimeErr γ)) (g : γ) :
    getEntry entrypoint o = Except.ok g ↔ o = some (.ok g) := by
  cases o with
  | none => simp [getEntry]
  | some x => cases x <;> simp [getEntry]

/-- The failures of an entry lookup are `MissingModuleEntrypoint` and
`UnexpectedModuleEntrypointInterface`. -/
theorem getEntry_eq_error {γ : Type} (entrypoint : String)
    (o : Option (Except RuntimeErr γ)) (e : Error) :
    getEntry entrypoint o = Except.error e ↔
      (o = none ∧
        e = Error.MissingModuleEntrypoint ⟨"missing export entrypoint"⟩) ∨
      (∃ re, o = some (.error re) ∧
        e = Error.UnexpectedModuleEntrypointInterface entrypoint re) := by
  cases o with
  | none => simp [getEntry, eq_comm]
  | some x => cases x <;> simp [getEntry, eq_comm]

/-- A Tx guest call succeeds exactly when the guest does not trap, and then
returns the environment acted on by the guest's host calls. -/
theorem txGuestCall_eq_ok (g : TxGuest) (input : TxCallInput) (env env' : TxEnv) :
    g.call input env = Except.ok env' ↔
      g.outcome = none ∧ env' = applyTxCalls env g.calls := by
  cases ho : g.outcome <;> simp [TxGuest.call, ho, eq_comm]

/-- A VP guest call succeeds exactly when the guest returns a value. -/
theorem vpGuestCall_eq_ok (g : VpGuest) (input : VpCallInput) (env : VpEnv)
    (p : Nat × VpEnv) :
    g.call input env = Except.ok p ↔
      g.result = Except.ok p.1 ∧ p.2 = applyVpCalls env g.calls := by
  cases p with
  | mk r env' =>
    cases hr : g.result <;>
      simp [VpGuest.call, hr, Prod.ext_iff, eq_comm, and_comm]

/-- A matchmaker guest call succeeds exactly when the guest returns. -/
theorem mmGuestCall_eq_ok (g : MmGuest) (input : MatchmakerCallInput)
    (r : Nat) : g.call input = Except.ok r ↔ g.result = Except.ok r := by
  cases hr : g.result <;> simp [MmGuest.call, hr]

/-- A filter guest call succeeds exactly when the guest returns. -/
theorem filterGuestCall_eq_ok (g : FilterGuest) (input : FilterCallInput)
    (r : Nat) : g.call input = Except.ok r ↔ g.result = Except.ok r := by
  cases hr : g.result <;> simp [FilterGuest.call, hr]

/-! ## Accumulation of the verifier set -/

/-- Membership after one Tx host call: only `insert_verifier` adds to the
verifier set. -/
theorem applyTxCall_verifiers_mem (env : TxEnv) (c : TxHostCall)
    (a : Address) :
    a ∈ (applyTxCall env c).verifiers ↔
      a ∈ env.verifiers ∨ c = TxHostCall.insert_verifier a := by
  cases c with
  | insert_verifier b =>
    simp only [applyTxCall, hashSetInsert, TxHostCall.insert_verifier.injEq]
    by_cases hb : b ∈ env.verifiers
    · rw [if_pos hb]
      constructor
      · exact Or.inl
      · rintro (h | rfl)
        · exact h
        · exact hb
    · rw [if_neg hb]
      simp [List.mem_cons, eq_comm]
      tauto
  | read k => simp [applyTxCall]
  | has_key k => simp [applyTxCall]
  | write k v => simp [applyTxCall]
  | delete k => simp [applyTxCall]
  | iter_pfx p => simp [applyTxCall]
  | iter_next h => simp [applyTxCall]
  | update_validity_predicate x y => simp [applyTxCall]
  | init_account x => simp [applyTxCall]
  | get_chain_id => simp [applyTxCall]
  | get_block_height => simp [applyTxCall]
  | get_block_hash => simp [applyTxCall]
  | log_string s => simp [applyTxCall]
  | gas c => simp [applyTxCall]

/-- Membership after a Tx host-call trace: the verifier set accumulates
exactly the addresses passed to `insert_verifier`. -/
theorem applyTxCalls_verifiers_mem (a : Address) :
    ∀ (cs : List TxHostCall) (env : TxEnv),
      a ∈ (applyTxCalls env cs).verifiers ↔
        a ∈ env.verifiers ∨ TxHostCall.insert_verifier a ∈ cs := by
  intro cs
  induction cs with
  | nil => intro env; simp [applyTxCalls]
  | cons c cs ih =>
    intro env
    have hstep : applyTxCalls env (c :: cs)
        = applyTxCalls (applyTxCall env c) cs := rfl
    rw [hstep, ih, applyTxCall_verifiers_mem]
    simp only [List.mem_cons, eq_comm]
    tauto

/-- `HashSet::insert` keeps the verifier list duplicate-free. -/
theorem hashSetInsert_nodup (s : List Address) (a : Address)
    (h : s.Nodup) : (hashSetInsert s a).Nodup := by
  unfold hashSetInsert
  split_ifs with hmem
  · exact h
  · exact List.nodup_cons.mpr ⟨hmem, h⟩

/-- One Tx host call keeps the verifier set duplicate-free. -/
theorem applyTxCall_verifiers_nodup (env : TxEnv) (c : TxHostCall)
    (h : env.verifiers.Nodup) : (applyTxCall env c).verifiers.Nodup := by
  cases c <;> simp [applyTxCall] <;>
    first
      | exact h
      | exact hashSetInsert_nodup _ _ h

/-- A Tx host-call trace keeps the verifier set duplicate-free. -/
theorem applyTxCalls_verifiers_nodup :
    ∀ (cs : List TxHostCall) (env : TxEnv), env.verifiers.Nodup →
      (applyTxCalls env cs).verifiers.Nodup := by
  intro cs
  induction cs with
  | nil => intro env h; exact h
  | cons c cs ih =>
    intro env h
    exact ih (applyTxCall env c) (applyTxCall_verifiers_nodup env c h)

/-! ## C4: the boolean mapping of the three boolean entrypoints -/

/-- C4: for every successfully invoked entrypoint, `VpRunner` maps the
guest's return value `r` to the verdict `r == 1`, while `MatchmakerRunner`
and `FilterRunner` map it to `r == 0`; every other return value maps to
`false`. -/
theorem entrypoint_boolean_mapping :
    (∀ (inst : VpInstance) (input : VpInput) (env : VpEnv) (b : Bool)
        (env' : VpEnv),
      VpRunner.run_with_input inst input env = .ok (b, env') →
      ∃ guest r, inst.entry = some (.ok guest) ∧
        guest.result = .ok r ∧ b = (r == 1) ∧ (b = true ↔ r = 1)) ∧
    (∀ (inst : MmInstance) (data intent_id intent_data : Bytes) (b : Bool),
      MatchmakerRunner.run_with_input inst data intent_id intent_data
        = .ok b →
      ∃ guest r, inst.entry = some (.ok guest) ∧
        guest.result = .ok r ∧ b = (r == 0) ∧ (b = true ↔ r = 0)) ∧
    (∀ (inst : FilterInstance) (intent_data : Bytes) (b : Bool),
      FilterRunner.run_with_input inst intent_data = .ok b →
      ∃ guest r, inst.entry = some (.ok guest) ∧
        guest.result = .ok r ∧ b = (r == 0) ∧ (b = true ↔ r = 0)) := by
  refine ⟨?_, ?_, ?_⟩
  · intro inst input env b env' h
    simp only [VpRunner.run_with_input, exceptBind_eq_ok, mapError_eq_ok,
      getMemoryExport_eq_ok, getEntry_eq_ok, vpGuestCall_eq_ok] at h
    obtain ⟨mem, hmem, ci, hci, guest, hentry, p, ⟨hres, hsnd⟩, hout⟩ := h
    cases hout
    exact ⟨guest, p.1, hentry, hres, rfl, by simp⟩
  · intro inst data intent_id intent_data b h
    simp only [MatchmakerRunner.run_with_input, exceptBind_eq_ok,
      mapError_eq_ok, getMemoryExport_eq_ok, getEntry_eq_ok,
      mmGuestCall_eq_ok] at h
    obtain ⟨mem, hmem, ci, hci, guest, hentry, r, hres, hout⟩ := h
    cases hout
    exact ⟨guest, r, hentry, hres, rfl, by simp⟩
  · intro inst intent_data b h
    simp only [FilterRunner.run_with_input, exceptBind_eq_ok,
      mapError_eq_ok, getMemoryExport_eq_ok, getEntry_eq_ok,
      filterGuestCall_eq_ok] at h
    obtain ⟨mem, hmem, ci, hci, guest, hentry, r, hres, hout⟩ := h
    cases hout
    exact ⟨guest, r, hentry, hres, rfl, by simp⟩

/-- Witness for `entrypoint_boolean_mapping` on the concrete sample
instances. -/
theorem entrypoint_boolean_mapping_witness :
    (∃ guest r, sampleVpInstance.entry = some (.ok guest) ∧
      guest.result = .ok r ∧ true = (r == 1) ∧ (true = true ↔ r = 1)) ∧
    (∃ guest r, sampleMmInstance.entry = some (.ok guest) ∧
      guest.result = .ok r ∧ true = (r == 0) ∧ (true = true ↔ r = 0)) :=
  ⟨entrypoint_boolean_mapping.1 sampleVpInstance ⟨"a", [], [], []⟩
      ⟨"a", ⟨[]⟩, ⟨[]⟩, ⟨0⟩, ⟨0⟩, [], [], []⟩ true
      ⟨"a", ⟨[]⟩, ⟨[]⟩, ⟨0⟩, ⟨0⟩, [], [], []⟩ rfl,
    entrypoint_boolean_mapping.2.1 sampleMmInstance [] [] [] true rfl⟩

/-! ## C5: verifier accumulation in `TxRunner::run` -/

/-- C5: when `TxRunner::run` returns `Ok`, the verifier set it returns is
exactly the set of distinct addresses the guest passed to
`insert_verifier`, starting from an empty set created fresh for the
invocation (so a guest making no `insert_verifier` calls yields the empty
set). -/
theorem tx_verifier_accumulation :
    ∀ (backend : TxBackend) (storage : Storage) (write_log : WriteLog)
      (gas_meter : BlockGasMeter) (tx_code tx_data : Bytes) (env' : TxEnv),
      TxRunner.run backend storage write_log gas_meter tx_code tx_data
        = .ok env' →
      ∃ icode tx_module inst guest,
        prepare_wasm_code tx_code = .ok icode ∧
        backend.compile icode = .ok tx_module ∧
        backend.instantiate tx_module (prepare_tx_imports ⟨16⟩)
          = .ok inst ∧
        inst.entry = some (.ok guest) ∧ guest.outcome = none ∧
        env'.verifiers.Nodup ∧
        (∀ a, a ∈ env'.verifiers ↔
          TxHostCall.insert_verifier a ∈ guest.calls) := by
  intro backend storage write_log gas_meter tx_code tx_data env' h
  simp only [TxRunner.run, exceptBind_eq_ok, mapError_eq_ok,
    prepare_tx_memory, TxRunner.run_with_input, getMemoryExport_eq_ok,
    getEntry_eq_ok, txGuestCall_eq_ok] at h
  obtain ⟨u, hv, icode, hprep, tx_module, hcompile, mem, hmem, inst, hinst,
    wmem, hwmem, ci, hci, guest, hentry, houtcome, henv⟩ := h
  cases hmem
  subst henv
  refine ⟨icode, tx_module, inst, guest, hprep, hcompile, hinst, hentry,
    houtcome, ?_, ?_⟩
  · exact applyTxCalls_verifiers_nodup guest.calls _ List.nodup_nil
  · intro a
    rw [applyTxCalls_verifiers_mem]
    simp

/-- Witness for `tx_verifier_accumulation` on the sample backend whose
guest inserts the addresses "a", "b" and "a" again. -/
theorem tx_verifier_accumulation_witness :
    ∃ icode tx_module inst guest,
      prepare_wasm_code [0, 97, 115, 109] = .ok icode ∧
      sampleTxBackend.compile icode = .ok tx_module ∧
      sampleTxBackend.instantiate tx_module (prepare_tx_imports ⟨16⟩)
        = .ok inst ∧
      inst.entry = some (.ok guest) ∧ guest.outcome = none ∧
      (TxEnv.mk ⟨[]⟩ ⟨[]⟩ ⟨0⟩ ["b", "a"] ⟨3⟩).verifiers.Nodup ∧
      (∀ a, a ∈ (TxEnv.mk ⟨[]⟩ ⟨[]⟩ ⟨0⟩ ["b", "a"] ⟨3⟩).verifiers ↔
        TxHostCall.insert_verifier a ∈ guest.calls) :=
  tx_verifier_accumulation sampleTxBackend ⟨[]⟩ ⟨[]⟩ ⟨0⟩ [0, 97, 115, 109]
    [] (TxEnv.mk ⟨[]⟩ ⟨[]⟩ ⟨0⟩ ["b", "a"] ⟨3⟩) (by decide)

/-! ## Read-only behaviour of the VP host calls -/

mutual

/-- One VP host call leaves every component of the environment except the
iterators and the gas meter unchanged. -/
theorem applyVpCall_preserve (env : VpEnv) (c : VpHostCall) :
    (applyVpCall env c).addr = env.addr ∧
    (applyVpCall env c).storage = env.storage ∧
    (applyVpCall env c).write_log = env.write_log ∧
    (applyVpCall env c).tx_code = env.tx_code ∧
    (applyVpCall env c).keys_changed = env.keys_changed ∧
    (applyVpCall env c).verifiers = env.verifiers :=
  match c with
  | .read_pre _ => ⟨rfl, rfl, rfl, rfl, rfl, rfl⟩
  | .read_post _ => ⟨rfl, rfl, rfl, rfl, rfl, rfl⟩
  | .has_key_pre _ => ⟨rfl, rfl, rfl, rfl, rfl, rfl⟩
  | .has_key_post _ => ⟨rfl, rfl, rfl, rfl, rfl, rfl⟩
  | .iter_pfx _ => ⟨rfl, rfl, rfl, rfl, rfl, rfl⟩
  | .iter_pre_next _ => ⟨rfl, rfl, rfl, rfl, rfl, rfl⟩
  | .iter_post_next _ => ⟨rfl, rfl, rfl, rfl, rfl, rfl⟩
  | .get_chain_id => ⟨rfl, rfl, rfl, rfl, rfl, rfl⟩
  | .get_block_height => ⟨rfl, rfl, rfl, rfl, rfl, rfl⟩
  | .get_block_hash => ⟨rfl, rfl, rfl, rfl, rfl, rfl⟩
  | .log_string _ => ⟨rfl, rfl, rfl, rfl, rfl, rfl⟩
  | .gas _ => ⟨rfl, rfl, rfl, rfl, rfl, rfl⟩
  | .eval _ _ nested =>
    applyVpCalls_preserve { env with gas_meter := env.gas_meter.add 1 } nested

/-- A VP host-call trace leaves every component of the environment except
the iterators and the gas meter unchanged. -/
theorem applyVpCalls_preserve (env : VpEnv) (cs : List VpHostCall) :
    (applyVpCalls env cs).addr = env.addr ∧
    (applyVpCalls env cs).storage = env.storage ∧
    (applyVpCalls env cs).write_log = env.write_log ∧
    (applyVpCalls env cs).tx_code = env.tx_code ∧
    (applyVpCalls env cs).keys_changed = env.keys_changed ∧
    (applyVpCalls env cs).verifiers = env.verifiers :=
  match cs with
  | [] => ⟨rfl, rfl, rfl, rfl, rfl, rfl⟩
  | c :: cs =>
    have h1 := applyVpCall_preserve env c
    have h2 := applyVpCalls_preserve (applyVpCall env c) cs
    ⟨h2.1.trans h1.1, h2.2.1.trans h1.2.1, h2.2.2.1.trans h1.2.2.1,
      h2.2.2.2.1.trans h1.2.2.2.1, h2.2.2.2.2.1.trans h1.2.2.2.2.1,
      h2.2.2.2.2.2.trans h1.2.2.2.2.2⟩

end

/-! ## C7: VP read-only isolation -/

/-- C7: `VpRunner::run` wraps the storage, write log, tx code, storage keys
and verifiers handles immutably (`EnvHostWrapper` / `EnvHostSliceWrapper`)
and only the per-invocation gas meter and the freshly created iterators
mutably (`MutEnvHostWrapper`); accordingly, a successful VP run leaves the
storage and the write log (and the other immutably wrapped inputs)
unchanged. -/
theorem vp_read_only_isolation :
    vpRunWrapping =
      { storage := .envHost
        write_log := .envHost
        tx_code := .envHostSlice
        iterators := .mutEnvHost
        gas_meter := .mutEnvHost
        storage_keys := .envHostSlice
        verifiers := .envHost } ∧
    ∀ (backend : VpBackend) (vp_code tx_data tx_code : Bytes)
      (addr : Address) (storage : Storage) (write_log : WriteLog)
      (vp_gas_meter : VpGasMeter) (storage_keys : List Key)
      (verifiers : List Address) (b : Bool) (env' : VpEnv),
      VpRunner.run backend vp_code tx_data tx_code addr storage write_log
        vp_gas_meter storage_keys verifiers = .ok (b, env') →
      env'.storage = storage ∧ env'.write_log = write_log ∧
      env'.addr = addr ∧ env'.tx_code = tx_code ∧
      env'.keys_changed = storage_keys ∧ env'.verifiers = verifiers := by
  refine ⟨rfl, ?_⟩
  intro backend vp_code tx_data tx_code addr storage write_log vp_gas_meter
    storage_keys verifiers b env' h
  simp only [VpRunner.run, exceptBind_eq_ok, mapError_eq_ok,
    prepare_vp_memory, VpRunner.run_with_input, getMemoryExport_eq_ok,
    getEntry_eq_ok, vpGuestCall_eq_ok] at h
  obtain ⟨u, hv, icode, hprep, vmod, hcomp, mem, hmem, inst, hinst, wmem,
    hwm, ci, hci, guest, hentry, p, ⟨hres, hsnd⟩, hout⟩ := h
  have hfst : ((p.1 == 1) = b) ∧ p.2 = env' := by
    constructor
    · exact congrArg Prod.fst (Except.ok.inj hout)
    · exact congrArg Prod.snd (Except.ok.inj hout)
  obtain ⟨hb, henv⟩ := hfst
  subst henv
  rw [hsnd]
  have hp := applyVpCalls_preserve
    ⟨addr, storage, write_log, PfxIterators.new, vp_gas_meter, tx_code,
      storage_keys, verifiers⟩ guest.calls
  exact ⟨hp.2.1, hp.2.2.1, hp.1, hp.2.2.2.1, hp.2.2.2.2.1, hp.2.2.2.2.2⟩

/-- Witness for `vp_read_only_isolation` on the sample backend and empty
state. -/
theorem vp_read_only_isolation_witness :
    (VpEnv.mk "a" ⟨[]⟩ ⟨[]⟩ ⟨0⟩ ⟨0⟩ [] [] []).storage = ⟨[]⟩ ∧
    (VpEnv.mk "a" ⟨[]⟩ ⟨[]⟩ ⟨0⟩ ⟨0⟩ [] [] []).write_log = ⟨[]⟩ ∧
    (VpEnv.mk "a" ⟨[]⟩ ⟨[]⟩ ⟨0⟩ ⟨0⟩ [] [] []).addr = "a" ∧
    (VpEnv.mk "a" ⟨[]⟩ ⟨[]⟩ ⟨0⟩ ⟨0⟩ [] [] []).tx_code = [] ∧
    (VpEnv.mk "a" ⟨[]⟩ ⟨[]⟩ ⟨0⟩ ⟨0⟩ [] [] []).keys_changed = [] ∧
    (VpEnv.mk "a" ⟨[]⟩ ⟨[]⟩ ⟨0⟩ ⟨0⟩ [] [] []).verifiers = [] :=
  vp_read_only_isolation.2 sampleVpBackend [0, 97, 115, 109] [] [] "a"
    ⟨[]⟩ ⟨[]⟩ ⟨0⟩ [] [] true (VpEnv.mk "a" ⟨[]⟩ ⟨[]⟩ ⟨0⟩ ⟨0⟩ [] [] [])
    (by decide)

/-! ## C6: nested evaluation shares the caller's environment -/

/-- C6: `VpRunner::run_eval` runs the supplied module against the caller's
`VpEnv` — the input is built from the caller's address, `keys_changed` and
`verifiers` read out of `vp_env`, and the same storage, write-log,
iterator and gas-meter state is threaded into the nested guest — and
returns the nested guest's verdict; gas accrues to the caller's meter
(the final environment is the caller's acted on by the nested trace), and
the `eval` host call converts any error of the nested run to a reject
verdict. -/
theorem run_eval_shares_caller_env :
    ∀ (backend : VpBackend) (vp_code input_data : Bytes) (env : VpEnv)
      (icode vp_module : Bytes) (inst : VpInstance),
      prepare_wasm_code vp_code = .ok icode →
      backend.compile icode = .ok vp_module →
      backend.instantiate vp_module (prepare_vp_imports ⟨16⟩) = .ok inst →
      (VpRunner.run_eval backend vp_code input_data env =
        VpRunner.run_with_input inst
          ⟨env.addr, input_data, env.keys_changed, env.verifiers⟩ env) ∧
      (∀ (b : Bool) (env' : VpEnv),
        VpRunner.run_eval backend vp_code input_data env = .ok (b, env') →
        env'.addr = env.addr ∧ env'.storage = env.storage ∧
        env'.write_log = env.write_log ∧
        ∃ guest r, inst.entry = some (.ok guest) ∧
          guest.result = .ok r ∧ b = (r == 1) ∧
          env' = applyVpCalls env guest.calls) ∧
      (∀ e, VpRunner.run_eval backend vp_code input_data env = .error e →
        eval_host_call backend vp_code input_data env = (false, env)) := by
  intro backend vp_code input_data env icode vp_module inst hprep hcomp hinst
  have heq : VpRunner.run_eval backend vp_code input_data env =
      VpRunner.run_with_input inst
        ⟨env.addr, input_data, env.keys_changed, env.verifiers⟩ env := by
    simp [VpRunner.run_eval, hprep, hcomp, hinst, prepare_vp_memory,
      Except.mapError, bind, Except.bind]
  refine ⟨heq, ?_, ?_⟩
  · intro b env' hok
    rw [heq] at hok
    simp only [VpRunner.run_with_input, exceptBind_eq_ok, mapError_eq_ok,
      getMemoryExport_eq_ok, getEntry_eq_ok, vpGuestCall_eq_ok] at hok
    obtain ⟨wmem, hwm, ci, hci, guest, hentry, p, ⟨hres, hsnd⟩, hout⟩ := hok
    have hb : (p.1 == 1) = b := congrArg Prod.fst (Except.ok.inj hout)
    have henv : p.2 = env' := congrArg Prod.snd (Except.ok.inj hout)
    subst henv
    rw [hsnd]
    have hp := applyVpCalls_preserve env guest.calls
    exact ⟨hp.1, hp.2.1, hp.2.2.1,
      guest, p.1, hentry, hres, hb.symm, rfl⟩
  · intro e herr
    simp [eval_host_call, herr]

/-- Witness for `run_eval_shares_caller_env` on the sample backend. -/
theorem run_eval_shares_caller_env_witness :
    VpRunner.run_eval sampleVpBackend [0, 97, 115, 109] []
        (VpEnv.mk "a" ⟨[]⟩ ⟨[]⟩ ⟨0⟩ ⟨0⟩ [] [] []) =
      VpRunner.run_with_input sampleVpInstance
        ⟨(VpEnv.mk "a" ⟨[]⟩ ⟨[]⟩ ⟨0⟩ ⟨0⟩ [] [] []).addr, [],
          (VpEnv.mk "a" ⟨[]⟩ ⟨[]⟩ ⟨0⟩ ⟨0⟩ [] [] []).keys_changed,
          (VpEnv.mk "a" ⟨[]⟩ ⟨[]⟩ ⟨0⟩ ⟨0⟩ [] [] []).verifiers⟩
        (VpEnv.mk "a" ⟨[]⟩ ⟨[]⟩ ⟨0⟩ ⟨0⟩ [] [] []) :=
  (run_eval_shares_caller_env sampleVpBackend [0, 97, 115, 109] []
    (VpEnv.mk "a" ⟨[]⟩ ⟨[]⟩ ⟨0⟩ ⟨0⟩ [] [] []) [0, 97, 115, 109, 1, 65535]
    [0, 97, 115, 109, 1, 65535] sampleVpInstance (by decide) rfl rfl).1

/-! ## Error-side helper lemmas -/

/-- A failing Tx guest call fails with `RuntimeError`. -/
theorem txGuestCall_eq_error (g : TxGuest) (input : TxCallInput)
    (env : TxEnv) (e : Error) :
    g.call input env = Except.error e ↔
      ∃ re, g.outcome = some re ∧ e = Error.RuntimeError re := by
  cases ho : g.outcome <;> simp [TxGuest.call, ho, eq_comm]

/-- A failing VP guest call fails with `RuntimeError`. -/
theorem vpGuestCall_eq_error (g : VpGuest) (input : VpCallInput)
    (env : VpEnv) (e : Error) :
    g.call input env = Except.error e ↔
      ∃ re, g.result = Except.error re ∧ e = Error.RuntimeError re := by
  cases hr : g.result <;> simp [VpGuest.call, hr, eq_comm]

/-- A failing matchmaker guest call fails with `RuntimeError`. -/
theorem mmGuestCall_eq_error (g : MmGuest) (input : MatchmakerCallInput)
    (e : Error) :
    g.call input = Except.error e ↔
      ∃ re, g.result = Except.error re ∧ e = Error.RuntimeError re := by
  cases hr : g.result <;> simp [MmGuest.call, hr, eq_comm]

/-- A failing filter guest call fails with `RuntimeError`. -/
theorem filterGuestCall_eq_error (g : FilterGuest) (input : FilterCallInput)
    (e : Error) :
    g.call input = Except.error e ↔
      ∃ re, g.result = Except.error re ∧ e = Error.RuntimeError re := by
  cases hr : g.result <;> simp [FilterGuest.call, hr, eq_comm]

/-- The instrumenter never reports a validation error. -/
theorem prepare_wasm_code_not_validation (code : Bytes)
    (v : BinaryReaderError) :
    prepare_wasm_code code ≠ .error (Error.ValidationError v) := by
  intro h
  cases hd : elements.deserialize_buffer code with
  | error d =>
    simp [prepare_wasm_code, hd, Except.mapError, bind, Except.bind] at h
  | ok m =>
    cases hg : pwasm_utils.inject_gas_counter m get_gas_rules "env" with
    | error m0 =>
      simp [prepare_wasm_code, hd, hg, Except.mapError, bind,
        Except.bind] at h
    | ok m2 =>
      simp [prepare_wasm_code, hd, hg, Except.mapError, bind, Except.bind,
        pwasm_utils.inject_limiter, elements.serialize] at h

/-! ## C9: the nested-evaluation path never reports a validation error -/

/-- C9: `VpRunner::run_eval` passes the nested module bytes directly to
`prepare_wasm_code` without calling `validate_untrusted_wasm`, so it can
never return `Error::ValidationError` — unlike `VpRunner::run`, which
validates the top-level VP code first and propagates its validation
error. -/
theorem run_eval_no_validation_error :
    (∀ (backend : VpBackend) (vp_code input_data : Bytes) (env : VpEnv)
        (v : BinaryReaderError),
      VpRunner.run_eval backend vp_code input_data env
        ≠ .error (Error.ValidationError v)) ∧
    (∀ (backend : VpBackend) (vp_code tx_data tx_code : Bytes)
        (addr : Address) (storage : Storage) (write_log : WriteLog)
        (vp_gas_meter : VpGasMeter) (storage_keys : List Key)
        (verifiers : List Address) (e : Error),
      validate_untrusted_wasm vp_code = .error e →
      VpRunner.run backend vp_code tx_data tx_code addr storage write_log
        vp_gas_meter storage_keys verifiers = .error e) := by
  constructor
  · intro backend vp_code input_data env v h
    simp only [VpRunner.run_eval, exceptBind_eq_error, mapError_eq_error,
      prepare_vp_memory, VpRunner.run_with_input, getMemoryExport_eq_error,
      getEntry_eq_error, vpGuestCall_eq_error, exceptBind_eq_ok,
      mapError_eq_ok, getMemoryExport_eq_ok, getEntry_eq_ok] at h
    exact prepare_wasm_code_not_validation vp_code v (by simpa using h)
  · intro backend vp_code tx_data tx_code addr storage write_log
      vp_gas_meter storage_keys verifiers e hval
    simp [VpRunner.run, hval, bind, Except.bind]

/-- Witness for `run_eval_no_validation_error` on a concrete byte string
rejected by the validator. -/
theorem run_eval_no_validation_error_witness :
    VpRunner.run_eval sampleVpBackend [5] []
        (VpEnv.mk "a" ⟨[]⟩ ⟨[]⟩ ⟨0⟩ ⟨0⟩ [] [] [])
      ≠ .error (Error.ValidationError ⟨0⟩) ∧
    VpRunner.run sampleVpBackend [5] [] [] "a" ⟨[]⟩ ⟨[]⟩ ⟨0⟩ [] []
      = .error (Error.ValidationError ⟨0⟩) :=
  ⟨run_eval_no_validation_error.1 sampleVpBackend [5] []
      (VpEnv.mk "a" ⟨[]⟩ ⟨[]⟩ ⟨0⟩ ⟨0⟩ [] [] []) ⟨0⟩,
    run_eval_no_validation_error.2 sampleVpBackend [5] [] [] "a" ⟨[]⟩ ⟨[]⟩
      ⟨0⟩ [] [] (Error.ValidationError ⟨0⟩) (by decide)⟩

/-! ## C1: which runners validate and instrument -/

/-- C1 (amended): `TxRunner::run`, `VpRunner::run` and `FilterRunner::run`
validate the raw bytes and then instrument them before compiling —
propagating both a validation failure and an instrumentation failure —
whereas `MatchmakerRunner::run` compiles the matchmaker bytes directly and
performs neither step, so it never returns a validation or instrumentation
error. -/
theorem runners_validate_and_instrument :
    (∀ (backend : TxBackend) (storage : Storage) (write_log : WriteLog)
        (gas_meter : BlockGasMeter) (tx_code tx_data : Bytes) (e : Error),
      validate_untrusted_wasm tx_code = .error e →
      TxRunner.run backend storage write_log gas_meter tx_code tx_data
        = .error e) ∧
    (∀ (backend : VpBackend) (vp_code tx_data tx_code : Bytes)
        (addr : Address) (storage : Storage) (write_log : WriteLog)
        (vp_gas_meter : VpGasMeter) (storage_keys : List Key)
        (verifiers : List Address) (e : Error),
      validate_untrusted_wasm vp_code = .error e →
      VpRunner.run backend vp_code tx_data tx_code addr storage write_log
        vp_gas_meter storage_keys verifiers = .error e) ∧
    (∀ (backend : FilterBackend) (code intent_data : Bytes) (e : Error),
      validate_untrusted_wasm code = .error e →
      FilterRunner.run backend code intent_data = .error e) ∧
    (∀ (backend : TxBackend) (storage : Storage) (write_log : WriteLog)
        (gas_meter : BlockGasMeter) (tx_code tx_data : Bytes) (e : Error),
      validate_untrusted_wasm tx_code = .ok () →
      prepare_wasm_code tx_code = .error e →
      TxRunner.run backend storage write_log gas_meter tx_code tx_data
        = .error e) ∧
    (∀ (backend : VpBackend) (vp_code tx_data tx_code : Bytes)
        (addr : Address) (storage : Storage) (write_log : WriteLog)
        (vp_gas_meter : VpGasMeter) (storage_keys : List Key)
        (verifiers : List Address) (e : Error),
      validate_untrusted_wasm vp_code = .ok () →
      prepare_wasm_code vp_code = .error e →
      VpRunner.run backend vp_code tx_data tx_code addr storage write_log
        vp_gas_meter storage_keys verifiers = .error e) ∧
    (∀ (backend : FilterBackend) (code intent_data : Bytes) (e : Error),
      validate_untrusted_wasm code = .ok () →
      prepare_wasm_code code = .error e →
      FilterRunner.run backend code intent_data = .error e) ∧
    (∀ (backend : MmBackend)
        (code data intent_id intent_data tx_code : Bytes) (s : Sender),
      (∀ v, MatchmakerRunner.run backend code data intent_id intent_data
        tx_code s ≠ .error (Error.ValidationError v)) ∧
      MatchmakerRunner.run backend code data intent_id intent_data tx_code s
        ≠ .error Error.GasMeterInjection ∧
      MatchmakerRunner.run backend code data intent_id intent_data tx_code s
        ≠ .error Error.StackLimiterInjection ∧
      (∀ d, MatchmakerRunner.run backend code data intent_id intent_data
        tx_code s ≠ .error (Error.DeserializationError d)) ∧
      (∀ d, MatchmakerRunner.run backend code data intent_id intent_data
        tx_code s ≠ .error (Error.SerializationError d))) := by
  refine ⟨?_, ?_, ?_, ?_, ?_, ?_, ?_⟩
  · intro backend storage write_log gas_meter tx_code tx_data e hval
    simp [TxRunner.run, hval, bind, Except.bind]
  · intro backend vp_code tx_data tx_code addr storage write_log
      vp_gas_meter storage_keys verifiers e hval
    simp [VpRunner.run, hval, bind, Except.bind]
  · intro backend code intent_data e hval
    simp [FilterRunner.run, hval, bind, Except.bind]
  · intro backend storage write_log gas_meter tx_code tx_data e hval hprep
    simp [TxRunner.run, hval, hprep, bind, Except.bind]
  · intro backend vp_code tx_data tx_code addr storage write_log
      vp_gas_meter storage_keys verifiers e hval hprep
    simp [VpRunner.run, hval, hprep, bind, Except.bind]
  · intro backend code intent_data e hval hprep
    simp [FilterRunner.run, hval, hprep, bind, Except.bind]
  · intro backend code data intent_id intent_data tx_code s
    refine ⟨?_, ?_, ?_, ?_, ?_⟩
    · intro v h
      simp [MatchmakerRunner.run, exceptBind_eq_error,
        mapError_eq_error, prepare_matchmaker_memory,
        MatchmakerRunner.run_with_input, getMemoryExport_eq_error,
        getEntry_eq_error, mmGuestCall_eq_error, exceptBind_eq_ok,
        mapError_eq_ok, getMemoryExport_eq_ok, getEntry_eq_ok] at h
    · intro h
      simp [MatchmakerRunner.run, exceptBind_eq_error,
        mapError_eq_error, prepare_matchmaker_memory,
        MatchmakerRunner.run_with_input, getMemoryExport_eq_error,
        getEntry_eq_error, mmGuestCall_eq_error, exceptBind_eq_ok,
        mapError_eq_ok, getMemoryExport_eq_ok, getEntry_eq_ok] at h
    · intro h
      simp [MatchmakerRunner.run, exceptBind_eq_error,
        mapError_eq_error, prepare_matchmaker_memory,
        MatchmakerRunner.run_with_input, getMemoryExport_eq_error,
        getEntry_eq_error, mmGuestCall_eq_error, exceptBind_eq_ok,
        mapError_eq_ok, getMemoryExport_eq_ok, getEntry_eq_ok] at h
    · intro d h
      simp [MatchmakerRunner.run, exceptBind_eq_error,
        mapError_eq_error, prepare_matchmaker_memory,
        MatchmakerRunner.run_with_input, getMemoryExport_eq_error,
        getEntry_eq_error, mmGuestCall_eq_error, exceptBind_eq_ok,
        mapError_eq_ok, getMemoryExport_eq_ok, getEntry_eq_ok] at h
    · intro d h
      simp [MatchmakerRunner.run, exceptBind_eq_error,
        mapError_eq_error, prepare_matchmaker_memory,
        MatchmakerRunner.run_with_input, getMemoryExport_eq_error,
        getEntry_eq_error, mmGuestCall_eq_error, exceptBind_eq_ok,
        mapError_eq_ok, getMemoryExport_eq_ok, getEntry_eq_ok] at h

/-- C1 counterexample: on the byte string `[5]` — rejected by the
validator and by the instrumenter's deserialization — the matchmaker
runner still runs to completion: `MatchmakerRunner::run` performs neither
the validate step nor the instrument step. -/
theorem matchmaker_skips_validation_cex :
    validate_untrusted_wasm [5] = .error (Error.ValidationError ⟨0⟩) ∧
    prepare_wasm_code [5]
      = .error (Error.DeserializationError ⟨"magic header not detected"⟩) ∧
    MatchmakerRunner.run sampleMmBackend [5] [] [] [] [] ⟨0⟩ = .ok true := by
  decide

/-- Witness for `runners_validate_and_instrument` at concrete inputs. -/
theorem runners_validate_and_instrument_witness :
    TxRunner.run sampleTxBackend ⟨[]⟩ ⟨[]⟩ ⟨0⟩ [5] []
      = .error (Error.ValidationError ⟨0⟩) ∧
    (∀ v, MatchmakerRunner.run sampleMmBackend [5] [] [] [] [] ⟨0⟩
      ≠ .error (Error.ValidationError v)) :=
  ⟨runners_validate_and_instrument.1 sampleTxBackend ⟨[]⟩ ⟨[]⟩ ⟨0⟩ [5] []
      (Error.ValidationError ⟨0⟩) (by decide),
    (runners_validate_and_instrument.2.2.2.2.2.2 sampleMmBackend [5] [] []
      [] [] ⟨0⟩).1⟩

end Vm
